import Mathlib

/-!
Shallow embedding of the Car Management API: the `car` data model, the
per-request connection middleware, and the four route handlers, in both
observed variants (the `expressDatabase.js` one and the documented one
from the assignment notes).
-/

/-- JSON values, used for request bodies, response bodies and the
unvalidated column values a client may send. -/
inductive Json where
  | null : Json
  | bool : Bool → Json
  | num : Int → Json
  | str : String → Json
  | arr : List Json → Json
  | obj : List (String × Json) → Json

/-- A row of the `car` table.  `make`, `model`, `year` hold the
unvalidated JSON values the client sent; `deleted_flag` is the 0/1
soft-delete flag; `date_created` is the optional creation timestamp,
set only by the documented variant of the create handler. -/
structure Car where
  id : Nat
  make : Json
  model : Json
  year : Json
  deleted_flag : Nat
  date_created : Option Nat

/-- The `car` table together with its auto-increment id counter. -/
structure DB where
  nextId : Nat
  rows : List Car

/-- A parsed JSON request body: an association list of fields. -/
abbrev ReqBody := List (String × Json)

/-- Reading a field from a request body (JS destructuring); a missing
field reads as `null`. -/
def getField (b : ReqBody) (k : String) : Json :=
  match b.lookup k with
  | some v => v
  | none => Json.null

/-- Numeric value of a decimal digit character, if it is one. -/
def charDigit (ch : Char) : Option Nat :=
  if 48 ≤ ch.toNat ∧ ch.toNat ≤ 57 then some (ch.toNat - 48) else none

/-- Decimal parse of a character list with an accumulator. -/
def digitsToNat : List Char → Nat → Option Nat
  | [], acc => some acc
  | ch :: cs, acc =>
      match charDigit ch with
      | some d => digitsToNat cs (acc * 10 + d)
      | none => none

/-- MySQL-style coercion of an id string to a number. -/
def strToNat (s : String) : Option Nat :=
  match s.data with
  | [] => none
  | cs => digitsToNat cs 0

/-- MySQL comparison of a bound id parameter against the integer `id`
column: a numeric value compares directly; a string value (as produced
by an express path parameter) is coerced to a number first. -/
def sqlEqId : Json → Nat → Bool
  | Json.num k, n => k == Int.ofNat n
  | Json.str s, n => strToNat s == some n
  | _, _ => false

/-- An HTTP response: status code and JSON body. -/
structure Response where
  status : Nat
  body : Json

/-- The uniform error body `{error, details}` sent by every catch block. -/
def errBody (label msg : String) : Json :=
  Json.obj [("error", Json.str label), ("details", Json.str msg)]

/-- `res.status(500).json({error, details})`. -/
def err500 (label msg : String) : Response :=
  ⟨500, errBody label msg⟩

/-- Serialization of a row as returned by `SELECT *`: all columns, with
the optional `date_created` column appearing only when it is set. -/
def carToJson (c : Car) : Json :=
  Json.obj ([("id", Json.num (Int.ofNat c.id)), ("make", c.make),
    ("model", c.model), ("year", c.year),
    ("deleted_flag", Json.num (Int.ofNat c.deleted_flag))] ++
    (match c.date_created with
     | some t => [("date_created", Json.num (Int.ofNat t))]
     | none => []))

/-! ### Route handlers, `expressDatabase.js` variant

Each handler takes the current table state and `qerr`, the query-layer
exception (if any) raised by its database call, and returns the response
together with the table state afterwards. -/

/-- `GET /car`: `SELECT * FROM car WHERE deleted_flag = 0`, sent as
`{ cars }`; a query exception yields the uniform 500 body. -/
def getCarHandler (db : DB) (qerr : Option String) : Response × DB :=
  match qerr with
  | some e => (err500 "Internal Server Error: Failed to retrieve car data" e, db)
  | none =>
      (⟨200, Json.obj [("cars", Json.arr ((db.rows.filter
          (fun c => c.deleted_flag == 0)).map carToJson))]⟩, db)

/-- `POST /car`: reads only `make`, `model`, `year` from the body,
inserts one row with `deleted_flag = 0`, and echoes the generated id. -/
def postCarHandler (db : DB) (body : ReqBody) (qerr : Option String) :
    Response × DB :=
  let mk := getField body "make"
  let md := getField body "model"
  let yr := getField body "year"
  match qerr with
  | some e => (err500 "Internal Server Error: Failed to create car" e, db)
  | none =>
      (⟨200, Json.obj [("id", Json.num (Int.ofNat db.nextId)), ("make", mk),
          ("model", md), ("year", yr), ("success", Json.bool true)]⟩,
       ⟨db.nextId + 1, db.rows ++ [⟨db.nextId, mk, md, yr, 0, none⟩]⟩)

/-- Effect of `UPDATE car SET make = :make, model = :model, year = :year
WHERE id = :id` on one row. -/
def sqlUpdateCar (i mk md yr : Json) (c : Car) : Car :=
  if sqlEqId i c.id then { c with make := mk, model := md, year := yr } else c

/-- Effect of `UPDATE car SET deleted_flag = 1 WHERE id = :carId` on one
row. -/
def sqlSoftDelete (carId : String) (c : Car) : Car :=
  if sqlEqId (Json.str carId) c.id then { c with deleted_flag := 1 } else c

/-- `PUT /car`: unconditional update of the three fields for every row
matching the body's `id`, echoing the body fields back. -/
def putCarHandler (db : DB) (body : ReqBody) (qerr : Option String) :
    Response × DB :=
  let i := getField body "id"
  let mk := getField body "make"
  let md := getField body "model"
  let yr := getField body "year"
  match qerr with
  | some e => (err500 "Internal Server Error: Failed to update car" e, db)
  | none =>
      (⟨200, Json.obj [("id", i), ("make", mk), ("model", md), ("year", yr),
          ("success", Json.bool true)]⟩,
       ⟨db.nextId, db.rows.map (sqlUpdateCar i mk md yr)⟩)

/-- `DELETE /car/:id`: sets `deleted_flag = 1` for every row matching the
path parameter, answering `{success: true}`. -/
def deleteCarHandler (db : DB) (carId : String) (qerr : Option String) :
    Response × DB :=
  match qerr with
  | some e => (err500 "Internal Server Error: Failed to delete car" e, db)
  | none =>
      (⟨200, Json.obj [("success", Json.bool true)]⟩,
       ⟨db.nextId, db.rows.map (sqlSoftDelete carId)⟩)

/-! ### Route handlers, documented (assignment notes) variant -/

/-- Documented `GET /car`: identical query, but the row array is sent
under the key `car` instead of `cars`. -/
def getCarHandlerDoc (db : DB) (qerr : Option String) : Response × DB :=
  match qerr with
  | some e => (err500 "Internal Server Error: Failed to retrieve car data" e, db)
  | none =>
      (⟨200, Json.obj [("car", Json.arr ((db.rows.filter
          (fun c => c.deleted_flag == 0)).map carToJson))]⟩, db)

/-- Documented `POST /car`: additionally inserts `date_created = NOW()`
(the `now` argument) and a worded success message. -/
def postCarHandlerDoc (db : DB) (body : ReqBody) (now : Nat)
    (qerr : Option String) : Response × DB :=
  let mk := getField body "make"
  let md := getField body "model"
  let yr := getField body "year"
  match qerr with
  | some e => (err500 "Internal Server Error: Failed to create car" e, db)
  | none =>
      (⟨200, Json.obj [("id", Json.num (Int.ofNat db.nextId)), ("make", mk),
          ("model", md), ("year", yr),
          ("message", Json.str "Car successfully created"),
          ("success", Json.bool true)]⟩,
       ⟨db.nextId + 1, db.rows ++ [⟨db.nextId, mk, md, yr, 0, some now⟩]⟩)

/-- Documented `PUT /car`: textually identical to the other variant. -/
def putCarHandlerDoc (db : DB) (body : ReqBody) (qerr : Option String) :
    Response × DB :=
  let i := getField body "id"
  let mk := getField body "make"
  let md := getField body "model"
  let yr := getField body "year"
  match qerr with
  | some e => (err500 "Internal Server Error: Failed to update car" e, db)
  | none =>
      (⟨200, Json.obj [("id", i), ("make", mk), ("model", md), ("year", yr),
          ("success", Json.bool true)]⟩,
       ⟨db.nextId, db.rows.map (sqlUpdateCar i mk md yr)⟩)

/-- Documented `DELETE /car/:id`: textually identical to the other
variant. -/
def deleteCarHandlerDoc (db : DB) (carId : String) (qerr : Option String) :
    Response × DB :=
  match qerr with
  | some e => (err500 "Internal Server Error: Failed to delete car" e, db)
  | none =>
      (⟨200, Json.obj [("success", Json.bool true)]⟩,
       ⟨db.nextId, db.rows.map (sqlSoftDelete carId)⟩)

/-! ### Connection middleware -/

/-- The four awaited points of one request as the middleware sees them:
connection acquisition, the two session-configuration statements, and
the downstream route handler; each either succeeds or throws with a
message. -/
structure MwIn where
  getConnection : Except String Unit
  setMode : Except String Unit
  setTz : Except String Unit
  handler : Except String Response

/-- The `try` block of the middleware: its result, together with whether
`req.db` was set (a connection had been acquired when it ended). -/
def mwTryBody (i : MwIn) : Except String Response × Bool :=
  match i.getConnection with
  | .error e => (.error e, false)
  | .ok _ =>
      match i.setMode with
      | .error e => (.error e, true)
      | .ok _ =>
          match i.setTz with
          | .error e => (.error e, true)
          | .ok _ =>
              match i.handler with
              | .error e => (.error e, true)
              | .ok r => (.ok r, true)

/-- The whole middleware, parameterized by the error label of the catch
block (the only point where the two variants differ): the final response
and the number of `release()` calls made during the request. -/
def runMiddleware (label : String) (i : MwIn) : Response × Nat :=
  match mwTryBody i with
  | (.ok r, _) => (r, 1)
  | (.error e, held) => (err500 label e, if held then 1 else 0)

/-- Middleware of `expressDatabase.js`. -/
def connectionMiddleware : MwIn → Response × Nat :=
  runMiddleware "Internal Server Error: Unable to connect to cars database"

/-- Middleware of the documented variant. -/
def connectionMiddlewareDoc : MwIn → Response × Nat :=
  runMiddleware "Internal Server Error: Unable to connect to car database"

/-- Whether the request acquired a connection at all. -/
def dbAcquired (i : MwIn) : Bool :=
  match i.getConnection with
  | .ok _ => true
  | .error _ => false

/-- The first failure of the request in middleware order, if any. -/
def firstFailure (i : MwIn) : Option String :=
  match i.getConnection with
  | .error e => some e
  | .ok _ =>
      match i.setMode with
      | .error e => some e
      | .ok _ =>
          match i.setTz with
          | .error e => some e
          | .ok _ =>
              match i.handler with
              | .error e => some e
              | .ok _ => none

/-! ### Whole-API operations -/

/-- One API operation together with the query-layer exception (if any)
raised by its database call. -/
inductive Op where
  | list (qerr : Option String)
  | create (body : ReqBody) (qerr : Option String)
  | update (body : ReqBody) (qerr : Option String)
  | softDelete (carId : String) (qerr : Option String)

/-- Dispatching one operation to its `expressDatabase.js` handler. -/
def applyOp (db : DB) : Op → Response × DB
  | .list q => getCarHandler db q
  | .create b q => postCarHandler db b q
  | .update b q => putCarHandler db b q
  | .softDelete s q => deleteCarHandler db s q

/-- The query-layer exception of an operation. -/
def Op.qerr : Op → Option String
  | .list q => q
  | .create _ q => q
  | .update _ q => q
  | .softDelete _ q => q

/-- Applying a sequence of successful create requests, in order. -/
def applyCreates (db : DB) : List ReqBody → DB
  | [] => db
  | b :: bs => applyCreates (postCarHandler db b none).2 bs

/-! ### Helper lemmas -/

theorem sqlUpdateCar_id_eq (i mk md yr : Json) (c : Car) :
    (sqlUpdateCar i mk md yr c).id = c.id := by
  unfold sqlUpdateCar; split <;> rfl

theorem sqlUpdateCar_flag_eq (i mk md yr : Json) (c : Car) :
    (sqlUpdateCar i mk md yr c).deleted_flag = c.deleted_flag := by
  unfold sqlUpdateCar; split <;> rfl

theorem sqlUpdateCar_date_eq (i mk md yr : Json) (c : Car) :
    (sqlUpdateCar i mk md yr c).date_created = c.date_created := by
  unfold sqlUpdateCar; split <;> rfl

theorem sqlSoftDelete_id_eq (s : String) (c : Car) :
    (sqlSoftDelete s c).id = c.id := by
  unfold sqlSoftDelete; split <;> rfl

theorem sqlSoftDelete_idem (s : String) (c : Car) :
    sqlSoftDelete s (sqlSoftDelete s c) = sqlSoftDelete s c := by
  unfold sqlSoftDelete
  by_cases h : sqlEqId (Json.str s) c.id <;> simp [h]

theorem carToJson_flag {c1 c2 : Car} (h : carToJson c1 = carToJson c2) :
    c1.deleted_flag = c2.deleted_flag := by
  unfold carToJson at h
  cases h1 : c1.date_created <;> cases h2 : c2.date_created <;>
    rw [h1, h2] at h <;> simp_all

/-- C1: the connection middleware releases the acquired pooled connection
exactly once by the end of the request: once on the success path after the
handler completes, once in the catch block when a connection was acquired
and any later step failed, and zero times when acquisition itself failed;
every failure is answered with the 500 `{error, details}` response and no
request ends with its connection still checked out. -/
theorem middleware_releases_exactly_once (i : MwIn) :
    ((connectionMiddleware i).2 = if dbAcquired i then 1 else 0) ∧
    (∀ e, firstFailure i = some e →
      (connectionMiddleware i).1 =
        err500 "Internal Server Error: Unable to connect to cars database" e) ∧
    (∀ r, i.handler = Except.ok r → firstFailure i = none →
      (connectionMiddleware i).1 = r) := by
  obtain ⟨gc, sm, tz, hd⟩ := i
  cases gc <;> cases sm <;> cases tz <;> cases hd <;>
    simp [connectionMiddleware, runMiddleware, mwTryBody, dbAcquired,
      firstFailure]

theorem middleware_releases_exactly_once_witness :
    ((connectionMiddleware ⟨Except.error "boom", Except.ok (), Except.ok (),
        Except.ok ⟨200, Json.null⟩⟩).1 =
      err500 "Internal Server Error: Unable to connect to cars database"
        "boom") ∧
    (connectionMiddleware ⟨Except.ok (), Except.ok (), Except.ok (),
        Except.ok ⟨200, Json.null⟩⟩).1 = ⟨200, Json.null⟩ :=
  ⟨(middleware_releases_exactly_once _).2.1 "boom" rfl,
   (middleware_releases_exactly_once _).2.2 ⟨200, Json.null⟩ rfl rfl⟩

/-- C5: every failure, for every endpoint and every failure cause, is a
500 response whose body is `{error, details}` with both fields strings
and `details` carrying the underlying message; a handler never produces a
status other than 200 or 500, and the full request (middleware around the
handler) never does either. -/
theorem all_errors_are_500 (db : DB) (op : Op) (i : MwIn) :
    ((applyOp db op).1.status = 200 ∨ (applyOp db op).1.status = 500) ∧
    (∀ m, op.qerr = some m → (applyOp db op).1.status = 500 ∧
      ∃ label, (applyOp db op).1.body = errBody label m) ∧
    (∀ m, firstFailure i = some m →
      (connectionMiddleware i).1.status = 500 ∧
      (connectionMiddleware i).1.body =
        errBody "Internal Server Error: Unable to connect to cars database" m) ∧
    ((connectionMiddleware { i with handler := Except.ok (applyOp db op).1 }).1.status = 200 ∨
     (connectionMiddleware { i with handler := Except.ok (applyOp db op).1 }).1.status = 500) := by
  obtain ⟨gc, sm, tz, hd⟩ := i
  refine ⟨?_, ?_, ?_, ?_⟩
  · cases op <;> rename_i q <;> cases q <;>
      simp [applyOp, getCarHandler, postCarHandler, putCarHandler,
        deleteCarHandler, err500]
  · intro m hm
    cases op <;> rename_i q <;> cases q <;> simp_all [Op.qerr] <;>
      exact ⟨rfl, ⟨_, rfl⟩⟩
  · intro m hm
    cases gc <;> cases sm <;> cases tz <;> cases hd <;>
      simp_all [connectionMiddleware, runMiddleware, mwTryBody, firstFailure,
        err500]
  · have hst : (applyOp db op).1.status = 200 ∨ (applyOp db op).1.status = 500 := by
      cases op <;> rename_i q <;> cases q <;>
        simp [applyOp, getCarHandler, postCarHandler, putCarHandler,
          deleteCarHandler, err500]
    cases gc <;> cases sm <;> cases tz <;>
      simp_all [connectionMiddleware, runMiddleware, mwTryBody, err500]

theorem all_errors_are_500_witness :
    ((applyOp ⟨0, []⟩ (Op.list (some "db down"))).1.status = 500 ∧
      ∃ label, (applyOp ⟨0, []⟩ (Op.list (some "db down"))).1.body =
        errBody label "db down") ∧
    (connectionMiddleware ⟨Except.ok (), Except.error "cfg", Except.ok (),
        Except.ok ⟨200, Json.null⟩⟩).1.status = 500 :=
  ⟨(all_errors_are_500 ⟨0, []⟩ (Op.list (some "db down"))
      ⟨Except.ok (), Except.ok (), Except.ok (),
        Except.ok ⟨200, Json.null⟩⟩).2.1 "db down" rfl,
   ((all_errors_are_500 ⟨0, []⟩ (Op.list none)
      ⟨Except.ok (), Except.error "cfg", Except.ok (),
        Except.ok ⟨200, Json.null⟩⟩).2.2.1 "cfg" rfl).1⟩

/-- C2: GET /car answers 200, leaves the table unchanged, and its body is
exactly the rows with `deleted_flag = 0`: every active row appears, no
soft-deleted row appears, and this holds after any sequence of creates. -/
theorem get_car_exactly_active (db : DB) :
    (getCarHandler db none).1.status = 200 ∧
    (getCarHandler db none).2 = db ∧
    (getCarHandler db none).1.body = Json.obj [("cars", Json.arr
      ((db.rows.filter (fun c => c.deleted_flag == 0)).map carToJson))] ∧
    (∀ c, c ∈ db.rows → c.deleted_flag = 0 →
      carToJson c ∈ (db.rows.filter (fun c => c.deleted_flag == 0)).map carToJson) ∧
    (∀ c, c ∈ db.rows → c.deleted_flag ≠ 0 →
      carToJson c ∉ (db.rows.filter (fun c => c.deleted_flag == 0)).map carToJson) ∧
    (∀ bs : List ReqBody, (getCarHandler (applyCreates db bs) none).1.body
      = Json.obj [("cars", Json.arr (((applyCreates db bs).rows.filter
          (fun c => c.deleted_flag == 0)).map carToJson))]) := by
  refine ⟨rfl, rfl, rfl, ?_, ?_, fun bs => rfl⟩
  · intro c hc hflag
    exact List.mem_map_of_mem _ (List.mem_filter.mpr ⟨hc, by simp [hflag]⟩)
  · intro c hc hflag hmem
    obtain ⟨c1, hc1, heq⟩ := List.mem_map.mp hmem
    have h1 := (List.mem_filter.mp hc1).2
    have h2 := carToJson_flag heq
    simp at h1
    omega

theorem get_car_exactly_active_witness :
    carToJson ⟨1, Json.null, Json.null, Json.null, 0, none⟩ ∈
      (([⟨1, Json.null, Json.null, Json.null, 0, none⟩,
         ⟨2, Json.null, Json.null, Json.null, 1, none⟩] : List Car).filter
        (fun c => c.deleted_flag == 0)).map carToJson ∧
    carToJson ⟨2, Json.null, Json.null, Json.null, 1, none⟩ ∉
      (([⟨1, Json.null, Json.null, Json.null, 0, none⟩,
         ⟨2, Json.null, Json.null, Json.null, 1, none⟩] : List Car).filter
        (fun c => c.deleted_flag == 0)).map carToJson :=
  ⟨(get_car_exactly_active ⟨3, [⟨1, Json.null, Json.null, Json.null, 0, none⟩,
      ⟨2, Json.null, Json.null, Json.null, 1, none⟩]⟩).2.2.2.1 _
      (List.mem_cons_self _ _) rfl,
   (get_car_exactly_active ⟨3, [⟨1, Json.null, Json.null, Json.null, 0, none⟩,
      ⟨2, Json.null, Json.null, Json.null, 1, none⟩]⟩).2.2.2.2.1 _
      (List.mem_cons_of_mem _ (List.mem_cons_self _ _)) (by simp)⟩

/-- C3: no operation physically removes a row: the id column after any
operation extends the id column before it; the soft delete only sets
`deleted_flag = 1` on matching rows, afterwards the matching row still
exists with flag 1 and no active (listable) row matches the deleted id. -/
theorem rows_never_removed (db : DB) (op : Op) (s : String) :
    (∃ t, (applyOp db op).2.rows.map (fun c => c.id)
        = db.rows.map (fun c => c.id) ++ t) ∧
    (∀ c, c ∈ (deleteCarHandler db s none).2.rows →
      sqlEqId (Json.str s) c.id = true → c.deleted_flag = 1) ∧
    (∀ c, c ∈ db.rows → ∃ c2, c2 ∈ (deleteCarHandler db s none).2.rows ∧
      c2.id = c.id ∧ (sqlEqId (Json.str s) c.id = true → c2.deleted_flag = 1) ∧
      (sqlEqId (Json.str s) c.id = false → c2 = c)) ∧
    (∀ c, c ∈ (deleteCarHandler db s none).2.rows → c.deleted_flag = 0 →
      sqlEqId (Json.str s) c.id = false) := by
  refine ⟨?_, ?_, ?_, ?_⟩
  · cases op with
    | list q => cases q <;> exact ⟨[], by simp [applyOp, getCarHandler]⟩
    | create b q =>
        cases q with
        | none => exact ⟨[db.nextId], by simp [applyOp, postCarHandler]⟩
        | some e => exact ⟨[], by simp [applyOp, postCarHandler]⟩
    | update b q =>
        cases q with
        | none =>
            refine ⟨[], ?_⟩
            simp only [applyOp, putCarHandler, List.map_map, List.append_nil]
            exact List.map_congr_left fun c _ => sqlUpdateCar_id_eq _ _ _ _ c
        | some e => exact ⟨[], by simp [applyOp, putCarHandler]⟩
    | softDelete sid q =>
        cases q with
        | none =>
            refine ⟨[], ?_⟩
            simp only [applyOp, deleteCarHandler, List.map_map, List.append_nil]
            exact List.map_congr_left fun c _ => sqlSoftDelete_id_eq _ c
        | some e => exact ⟨[], by simp [applyOp, deleteCarHandler]⟩
  · intro c hc htrue
    obtain ⟨c0, hc0, rfl⟩ := List.mem_map.mp hc
    unfold sqlSoftDelete at htrue ⊢
    by_cases h : sqlEqId (Json.str s) c0.id <;> simp [h] at htrue ⊢
  · intro c hc
    refine ⟨sqlSoftDelete s c, List.mem_map_of_mem _ hc,
      sqlSoftDelete_id_eq s c, ?_, ?_⟩
    · intro h
      unfold sqlSoftDelete
      simp [h]
    · intro h
      unfold sqlSoftDelete
      simp [h]
  · intro c hc hflag
    obtain ⟨c0, hc0, rfl⟩ := List.mem_map.mp hc
    unfold sqlSoftDelete at hflag ⊢
    by_cases h : sqlEqId (Json.str s) c0.id
    · simp [h] at hflag
    · simp [h]

theorem rows_never_removed_witness :
    (sqlSoftDelete "1" ⟨1, Json.null, Json.null, Json.null, 0, none⟩).deleted_flag = 1 ∧
    sqlEqId (Json.str "1")
      (sqlSoftDelete "1" ⟨2, Json.null, Json.null, Json.null, 0, none⟩).id = false :=
  ⟨(rows_never_removed ⟨3, [⟨1, Json.null, Json.null, Json.null, 0, none⟩,
      ⟨2, Json.null, Json.null, Json.null, 0, none⟩]⟩ (Op.list none) "1").2.1 _
      (List.mem_cons_self _ _) (by decide),
   (rows_never_removed ⟨3, [⟨1, Json.null, Json.null, Json.null, 0, none⟩,
      ⟨2, Json.null, Json.null, Json.null, 0, none⟩]⟩ (Op.list none) "1").2.2.2 _
      (List.mem_cons_of_mem _ (List.mem_cons_self _ _)) (by decide)⟩

/-- C4: when the body's id (for PUT) and the path id (for DELETE) match no
row, both handlers affect zero rows, leave the table unchanged, and still
answer 200 with `success: true` (PUT echoing id, make, model, year);
neither distinguishes this from a real update or delete. -/
theorem no_match_still_success (db : DB) (body : ReqBody) (s : String)
    (hput : ∀ c, c ∈ db.rows → sqlEqId (getField body "id") c.id = false)
    (hdel : ∀ c, c ∈ db.rows → sqlEqId (Json.str s) c.id = false) :
    putCarHandler db body none = (⟨200, Json.obj [("id", getField body "id"),
      ("make", getField body "make"), ("model", getField body "model"),
      ("year", getField body "year"), ("success", Json.bool true)]⟩, db) ∧
    deleteCarHandler db s none =
      (⟨200, Json.obj [("success", Json.bool true)]⟩, db) := by
  constructor
  · have hrows : db.rows.map (sqlUpdateCar (getField body "id")
        (getField body "make") (getField body "model")
        (getField body "year")) = db.rows := by
      conv_rhs => rw [← List.map_id db.rows]
      exact List.map_congr_left fun c hc => by simp [sqlUpdateCar, hput c hc]
    show (_, DB.mk db.nextId (db.rows.map _)) = _
    rw [hrows]
  · have hrows : db.rows.map (sqlSoftDelete s) = db.rows := by
      conv_rhs => rw [← List.map_id db.rows]
      exact List.map_congr_left fun c hc => by simp [sqlSoftDelete, hdel c hc]
    show (_, DB.mk db.nextId (db.rows.map _)) = _
    rw [hrows]

theorem no_match_still_success_witness :
    deleteCarHandler ⟨2, [⟨1, Json.null, Json.null, Json.null, 0, none⟩]⟩
      "2" none = (⟨200, Json.obj [("success", Json.bool true)]⟩,
      ⟨2, [⟨1, Json.null, Json.null, Json.null, 0, none⟩]⟩) :=
  (no_match_still_success ⟨2, [⟨1, Json.null, Json.null, Json.null, 0, none⟩]⟩
    [("id", Json.num 2)] "2"
    (by intro c hc; rw [List.mem_singleton] at hc; subst hc; decide)
    (by intro c hc; rw [List.mem_singleton] at hc; subst hc; decide)).2

/-- C6 counterexample: in the `expressDatabase.js` variant, POST /car for
`{make: "Ford", model: "Taurus", year: 2024}` inserts its row with no
creation timestamp at all (`date_created` stays unset), contradicting the
claim that an implicit creation timestamp is set at insertion time. -/
theorem post_car_no_timestamp_cex :
    (postCarHandler ⟨0, []⟩ [("make", Json.str "Ford"),
        ("model", Json.str "Taurus"), ("year", Json.num 2024)] none).2.rows
      = [⟨0, Json.str "Ford", Json.str "Taurus", Json.num 2024, 0, none⟩] ∧
    ¬ ∃ t, (⟨0, Json.str "Ford", Json.str "Taurus", Json.num 2024, 0,
        (none : Option Nat)⟩ : Car).date_created = some t := by
  exact ⟨rfl, by simp⟩

/-- C6 amended: POST /car inserts exactly one new row with the three body
field values and `deleted_flag = 0`, with no validation, and answers 200
with `{id, make, model, year, success: true}` where `id` is the generated
id; only the documented variant additionally sets the creation timestamp
(and a success message), the `expressDatabase.js` variant leaves it
unset. -/
theorem post_car_inserts_row (db : DB) (body : ReqBody) (now : Nat) :
    (postCarHandler db body none).2.rows
      = db.rows ++ [⟨db.nextId, getField body "make", getField body "model",
          getField body "year", 0, none⟩] ∧
    (postCarHandler db body none).2.nextId = db.nextId + 1 ∧
    (postCarHandler db body none).1
      = ⟨200, Json.obj [("id", Json.num (Int.ofNat db.nextId)),
          ("make", getField body "make"), ("model", getField body "model"),
          ("year", getField body "year"), ("success", Json.bool true)]⟩ ∧
    (postCarHandlerDoc db body now none).2.rows
      = db.rows ++ [⟨db.nextId, getField body "make", getField body "model",
          getField body "year", 0, some now⟩] ∧
    (postCarHandlerDoc db body now none).1
      = ⟨200, Json.obj [("id", Json.num (Int.ofNat db.nextId)),
          ("make", getField body "make"), ("model", getField body "model"),
          ("year", getField body "year"),
          ("message", Json.str "Car successfully created"),
          ("success", Json.bool true)]⟩ :=
  ⟨rfl, rfl, rfl, rfl, rfl⟩

/-- C7: PUT /car maps each row through the single-row update and nothing
else: the update preserves `id`, `deleted_flag` and `date_created` of
every row, leaves non-matching rows entirely unchanged, and sets exactly
`make`, `model`, `year` on matching rows. -/
theorem put_car_frame (db : DB) (body : ReqBody) :
    (putCarHandler db body none).2.nextId = db.nextId ∧
    (putCarHandler db body none).2.rows
      = db.rows.map (sqlUpdateCar (getField body "id") (getField body "make")
          (getField body "model") (getField body "year")) ∧
    (∀ i mk md yr c, ((sqlUpdateCar i mk md yr c).id = c.id ∧
        (sqlUpdateCar i mk md yr c).deleted_flag = c.deleted_flag ∧
        (sqlUpdateCar i mk md yr c).date_created = c.date_created) ∧
      (sqlEqId i c.id = true →
        (sqlUpdateCar i mk md yr c).make = mk ∧
        (sqlUpdateCar i mk md yr c).model = md ∧
        (sqlUpdateCar i mk md yr c).year = yr) ∧
      (sqlEqId i c.id = false → sqlUpdateCar i mk md yr c = c)) := by
  refine ⟨rfl, rfl, ?_⟩
  intro i mk md yr c
  refine ⟨⟨sqlUpdateCar_id_eq i mk md yr c, sqlUpdateCar_flag_eq i mk md yr c,
    sqlUpdateCar_date_eq i mk md yr c⟩, ?_, ?_⟩
  · intro h
    unfold sqlUpdateCar
    simp [h]
  · intro h
    unfold sqlUpdateCar
    simp [h]

theorem put_car_frame_witness :
    ((sqlUpdateCar (Json.num 1) (Json.str "Honda") (Json.str "Civic")
        (Json.num 2020) ⟨1, Json.null, Json.null, Json.null, 0, none⟩).make
      = Json.str "Honda") ∧
    sqlUpdateCar (Json.num 2) (Json.str "Honda") (Json.str "Civic")
        (Json.num 2020) ⟨1, Json.null, Json.null, Json.null, 0, none⟩
      = ⟨1, Json.null, Json.null, Json.null, 0, none⟩ :=
  ⟨(((put_car_frame ⟨0, []⟩ []).2.2 (Json.num 1) (Json.str "Honda")
      (Json.str "Civic") (Json.num 2020)
      ⟨1, Json.null, Json.null, Json.null, 0, none⟩).2.1 (by decide)).1,
   ((put_car_frame ⟨0, []⟩ []).2.2 (Json.num 2) (Json.str "Honda")
      (Json.str "Civic") (Json.num 2020)
      ⟨1, Json.null, Json.null, Json.null, 0, none⟩).2.2 (by decide)⟩

/-- C8 counterexample: on the empty table, the two GET /car variants give
different responses: the row array is keyed `cars` in one and `car` in the
other, so the GET handlers are not behaviorally equivalent. -/
theorem variants_get_response_differ_cex :
    (getCarHandler ⟨0, []⟩ none).1.body ≠ (getCarHandlerDoc ⟨0, []⟩ none).1.body := by
  simp [getCarHandler, getCarHandlerDoc]

/-- C8 amended: the PUT and DELETE handlers of the two variants are
identical; the GET handlers have the same status, the same database
effect, identical error responses and the same row array, but send it
under the key `cars` in one variant and `car` in the other; the
middleware of the two variants releases identically and answers
identically on success, but words its 500 error message differently
("cars database" versus "car database"); POST differs in the timestamp
and success message. -/
theorem variants_equivalence (db : DB) (body : ReqBody) (s : String)
    (q : Option String) (i : MwIn) :
    putCarHandler db body q = putCarHandlerDoc db body q ∧
    deleteCarHandler db s q = deleteCarHandlerDoc db s q ∧
    (getCarHandler db q).2 = (getCarHandlerDoc db q).2 ∧
    (getCarHandler db q).1.status = (getCarHandlerDoc db q).1.status ∧
    (∀ m, q = some m → (getCarHandler db q).1 = (getCarHandlerDoc db q).1) ∧
    (getCarHandler db none).1.body = Json.obj [("cars", Json.arr
      ((db.rows.filter (fun c => c.deleted_flag == 0)).map carToJson))] ∧
    (getCarHandlerDoc db none).1.body = Json.obj [("car", Json.arr
      ((db.rows.filter (fun c => c.deleted_flag == 0)).map carToJson))] ∧
    (connectionMiddleware i).2 = (connectionMiddlewareDoc i).2 ∧
    (connectionMiddleware i).1.status = (connectionMiddlewareDoc i).1.status ∧
    (∀ r, i.handler = Except.ok r → firstFailure i = none →
      (connectionMiddleware i).1 = r ∧ (connectionMiddlewareDoc i).1 = r) ∧
    (∀ m, firstFailure i = some m →
      (connectionMiddleware i).1.body =
        errBody "Internal Server Error: Unable to connect to cars database" m ∧
      (connectionMiddlewareDoc i).1.body =
        errBody "Internal Server Error: Unable to connect to car database" m) := by
  obtain ⟨gc, sm, tz, hd⟩ := i
  refine ⟨rfl, rfl, ?_, ?_, ?_, rfl, rfl, ?_, ?_, ?_, ?_⟩
  · cases q <;> rfl
  · cases q <;> rfl
  · intro m hm; subst hm; rfl
  · cases gc <;> cases sm <;> cases tz <;> cases hd <;>
      simp [connectionMiddleware, connectionMiddlewareDoc, runMiddleware,
        mwTryBody]
  · cases gc <;> cases sm <;> cases tz <;> cases hd <;>
      simp [connectionMiddleware, connectionMiddlewareDoc, runMiddleware,
        mwTryBody, err500]
  · intro r hr hn
    cases gc <;> cases sm <;> cases tz <;> cases hd <;>
      simp_all [connectionMiddleware, connectionMiddlewareDoc, runMiddleware,
        mwTryBody, firstFailure]
  · intro m hm
    cases gc <;> cases sm <;> cases tz <;> cases hd <;>
      simp_all [connectionMiddleware, connectionMiddlewareDoc, runMiddleware,
        mwTryBody, firstFailure, err500, errBody]

theorem variants_equivalence_witness :
    ((getCarHandler ⟨0, []⟩ (some "x")).1 = (getCarHandlerDoc ⟨0, []⟩ (some "x")).1) ∧
    ((connectionMiddleware ⟨Except.ok (), Except.ok (), Except.ok (),
        Except.ok ⟨200, Json.null⟩⟩).1 = ⟨200, Json.null⟩) ∧
    ((connectionMiddleware ⟨Except.error "boom", Except.ok (), Except.ok (),
        Except.ok ⟨200, Json.null⟩⟩).1.body =
      errBody "Internal Server Error: Unable to connect to cars database" "boom") ∧
    (connectionMiddlewareDoc ⟨Except.error "boom", Except.ok (), Except.ok (),
        Except.ok ⟨200, Json.null⟩⟩).1.body =
      errBody "Internal Server Error: Unable to connect to car database" "boom" :=
  ⟨(variants_equivalence ⟨0, []⟩ [] "1" (some "x")
      ⟨Except.ok (), Except.ok (), Except.ok (),
        Except.ok ⟨200, Json.null⟩⟩).2.2.2.2.1 "x" rfl,
   ((variants_equivalence ⟨0, []⟩ [] "1" none
      ⟨Except.ok (), Except.ok (), Except.ok (),
        Except.ok ⟨200, Json.null⟩⟩).2.2.2.2.2.2.2.2.2.1 ⟨200, Json.null⟩
      rfl rfl).1,
   ((variants_equivalence ⟨0, []⟩ [] "1" none
      ⟨Except.error "boom", Except.ok (), Except.ok (),
        Except.ok ⟨200, Json.null⟩⟩).2.2.2.2.2.2.2.2.2.2 "boom" rfl).1,
   ((variants_equivalence ⟨0, []⟩ [] "1" none
      ⟨Except.error "boom", Except.ok (), Except.ok (),
        Except.ok ⟨200, Json.null⟩⟩).2.2.2.2.2.2.2.2.2.2 "boom" rfl).2⟩

/-- C9: POST /car reads only `make`, `model`, `year` from the body: two
bodies agreeing on those three fields (whatever else they contain,
including a client-supplied `deleted_flag`) produce identical inserted
rows and identical responses, and the inserted row always has
`deleted_flag = 0`. -/
theorem post_reads_only_three_fields (db : DB) (b1 b2 : ReqBody)
    (hmk : getField b1 "make" = getField b2 "make")
    (hmd : getField b1 "model" = getField b2 "model")
    (hyr : getField b1 "year" = getField b2 "year") :
    postCarHandler db b1 none = postCarHandler db b2 none ∧
    ∃ r, (postCarHandler db b1 none).2.rows = db.rows ++ [r] ∧
      r.deleted_flag = 0 := by
  constructor
  · simp only [postCarHandler]
    rw [hmk, hmd, hyr]
  · exact ⟨_, rfl, rfl⟩

theorem post_reads_only_three_fields_witness :
    postCarHandler ⟨0, []⟩ [("make", Json.str "Ford"),
        ("model", Json.str "Taurus"), ("year", Json.num 2024),
        ("deleted_flag", Json.num 1)] none
      = postCarHandler ⟨0, []⟩ [("make", Json.str "Ford"),
        ("model", Json.str "Taurus"), ("year", Json.num 2024)] none :=
  (post_reads_only_three_fields ⟨0, []⟩ _ _ rfl rfl rfl).1

/-- C10: DELETE /car/:id is idempotent: soft-deleting the same id twice
yields the same table state as doing it once, and the second application
also answers 200 with `{success: true}`. -/
theorem soft_delete_idempotent (db : DB) (s : String) :
    (deleteCarHandler (deleteCarHandler db s none).2 s none).2
      = (deleteCarHandler db s none).2 ∧
    (deleteCarHandler (deleteCarHandler db s none).2 s none).1
      = ⟨200, Json.obj [("success", Json.bool true)]⟩ := by
  refine ⟨?_, rfl⟩
  show DB.mk db.nextId ((db.rows.map (sqlSoftDelete s)).map (sqlSoftDelete s))
      = DB.mk db.nextId (db.rows.map (sqlSoftDelete s))
  rw [List.map_map]
  exact congrArg (DB.mk db.nextId)
    (List.map_congr_left fun c _ => sqlSoftDelete_idem s c)
